import Mathlib

/-!
Verification of the Instagram-Telegram bridge (JxInsta repository).

Shallow embedding of the bridge's core logic:
- dedup window (`EnhancedInstagramBot.isNewMessage`, src/unnamed/part_000),
- topic mapper single-flight (`getOrCreateTopic`, src/unnamed/part_001 and
  src/enhanced-bot/TelegramBridge.js),
- mapping persistence (`saveChatMapping`), stale-topic recovery
  (`verifyTopicExists` / `sendSimpleMessage`, src/unnamed/part_001),
- content filters and text payloads of both pipelines,
- voice conversion temp-file discipline (`handleTelegramVoice`,
  src/enhanced-bot/TelegramBridge.js),
- shutdown (`shutdown`, both bridge files).
-/

namespace JxBridge

/-! ## Dedup window

`EnhancedInstagramBot` (src/unnamed/part_000) keeps
`processedMessageIds : Set` (JS `Set` iterates in insertion order, so it is
modelled as a list with the oldest element first), a numeric
`lastMessageCheck` high-watermark, and the constant capacity
`maxProcessedMessageIds = 1000` (constructor, lines 13-16). -/

/-- An inbound Instagram message as seen by `isNewMessage`: only the `id`
field (which may be absent) and the numeric `timestamp` matter.
`id = none` models a JS-falsy `message.id` (`undefined`, `null`);
`some ""` models the falsy empty string. -/
structure Message where
  id : Option String
  timestamp : Nat
deriving DecidableEq

/-- Dedup state of `EnhancedInstagramBot`: the seen-id set in insertion
order (oldest first) and the high-watermark `lastMessageCheck`. -/
structure DedupState where
  processedMessageIds : List String
  lastMessageCheck : Nat
deriving DecidableEq

/-- Capacity of the dedup window, `this.maxProcessedMessageIds = 1000`
(src/unnamed/part_000 line 14). -/
def maxProcessedMessageIds : Nat := 1000

/-- JS truthiness test of `!message.id` for a string-valued id: falsy when
absent or the empty string. -/
def idFalsy (m : Message) : Bool :=
  match m.id with
  | none => true
  | some s => s = ""

/-- The id string carried by a message (defaulting the absent case). -/
def idStr (m : Message) : String := m.id.getD ""

/-- Model of `EnhancedInstagramBot.isNewMessage` (src/unnamed/part_000 lines 119-137),
returning the boolean result together with the updated dedup state:

- `if (!message.id) return false;`
- `if (message.timestamp <= this.lastMessageCheck) return false;`
- `if (this.processedMessageIds.has(message.id)) return false;`
- `this.processedMessageIds.add(message.id);`
- `this.lastMessageCheck = Math.max(this.lastMessageCheck, message.timestamp);`
- if the set size exceeds the capacity, delete the first (oldest
  inserted) element of the set;
- `return true;` -/
def isNewMessage (st : DedupState) (m : Message) : Bool × DedupState :=
  if idFalsy m then (false, st)
  else if m.timestamp ≤ st.lastMessageCheck then (false, st)
  else if st.processedMessageIds.contains (idStr m) then (false, st)
  else
    let ids := st.processedMessageIds ++ [idStr m]
    let lmc := max st.lastMessageCheck m.timestamp
    let ids' := if maxProcessedMessageIds < ids.length then ids.tail else ids
    (true, ⟨ids', lmc⟩)

/-- Acceptance condition of `isNewMessage`, spelled out. -/
theorem isNewMessage_fst (st : DedupState) (m : Message) :
    (isNewMessage st m).1 = true ↔
      idFalsy m = false ∧ st.lastMessageCheck < m.timestamp ∧
        st.processedMessageIds.contains (idStr m) = false := by
  unfold isNewMessage
  by_cases h1 : idFalsy m
  · simp [h1]
  · by_cases h2 : m.timestamp ≤ st.lastMessageCheck
    · simp [h1, h2, Nat.not_lt_of_le h2]
    · by_cases h3 : idStr m ∈ st.processedMessageIds
      · simp [h1, h2, h3]
      · simp [h1, h2, h3, Nat.lt_of_not_le h2]

/-- On rejection the state is unchanged; on acceptance the state is the
recorded one. -/
theorem isNewMessage_snd (st : DedupState) (m : Message) :
    (isNewMessage st m).2 =
      if (isNewMessage st m).1 then
        ⟨(if maxProcessedMessageIds < (st.processedMessageIds ++ [idStr m]).length
          then (st.processedMessageIds ++ [idStr m]).tail
          else st.processedMessageIds ++ [idStr m]),
         max st.lastMessageCheck m.timestamp⟩
      else st := by
  unfold isNewMessage
  by_cases h1 : idFalsy m
  · simp [h1]
  · by_cases h2 : m.timestamp ≤ st.lastMessageCheck
    · simp [h1, h2]
    · by_cases h3 : idStr m ∈ st.processedMessageIds
      · simp [h1, h2, h3]
      · simp [h1, h2, h3]

/-- Explicit form of an accepting `isNewMessage` run. -/
theorem isNewMessage_accept (st : DedupState) (m : Message)
    (h1 : ¬ idFalsy m = true) (h2 : ¬ m.timestamp ≤ st.lastMessageCheck)
    (h3 : idStr m ∉ st.processedMessageIds) :
    isNewMessage st m =
      (true,
        ⟨(if maxProcessedMessageIds < st.processedMessageIds.length + 1
           then (st.processedMessageIds ++ [idStr m]).tail
           else st.processedMessageIds ++ [idStr m]),
         max st.lastMessageCheck m.timestamp⟩) := by
  simp [isNewMessage, h1, h2, h3]

/-- C1: for every inbound message, the dedup acceptance check returns false
if the id has already been seen or if the timestamp is at most the
high-watermark; on acceptance it records the id in the seen-set and
advances the high-watermark to `max highWatermark timestamp`; and a message
delivered twice with the same id is accepted at most once (the repeated
delivery is always rejected). -/
theorem dedup_accept_correct (st : DedupState) (m : Message) :
    ((isNewMessage st m).1 = false ↔
      (idFalsy m = true ∨ m.timestamp ≤ st.lastMessageCheck ∨
        idStr m ∈ st.processedMessageIds))
  ∧ (isNewMessage st m).2.lastMessageCheck =
      (if (isNewMessage st m).1 then max st.lastMessageCheck m.timestamp
       else st.lastMessageCheck)
  ∧ (idStr m ∈ (isNewMessage st m).2.processedMessageIds ↔
      ((isNewMessage st m).1 = true ∨ idStr m ∈ st.processedMessageIds))
  ∧ (isNewMessage (isNewMessage st m).2 m).1 = false := by
  by_cases h1 : idFalsy m
  · simp [isNewMessage, h1]
  · by_cases h2 : m.timestamp ≤ st.lastMessageCheck
    · simp [isNewMessage, h1, h2]
    · by_cases h3 : idStr m ∈ st.processedMessageIds
      · simp [isNewMessage, h1, h2, h3]
      · have hmem : idStr m ∈
            (if maxProcessedMessageIds < st.processedMessageIds.length + 1
             then (st.processedMessageIds ++ [idStr m]).tail
             else st.processedMessageIds ++ [idStr m]) := by
          split
          · rename_i hlen
            cases hl : st.processedMessageIds with
            | nil => rw [hl] at hlen; simp [maxProcessedMessageIds] at hlen
            | cons a t => simp [hl]
          · simp
        rw [isNewMessage_accept st m h1 h2 h3]
        refine ⟨by simp [h1, h2, h3], by simp, by simpa using hmem, ?_⟩
        simp [isNewMessage, h1, le_sup_right]

/-- C9: an inbound message whose id is missing or falsy is rejected and
leaves both the seen-id set and the high-watermark unchanged. -/
theorem dedup_missing_id_rejected (st : DedupState) (m : Message)
    (h : idFalsy m = true) :
    (isNewMessage st m).1 = false ∧ (isNewMessage st m).2 = st := by
  simp [isNewMessage, h]

/-- Witness for C9 at a concrete message with an absent id. -/
theorem dedup_missing_id_rejected_witness :
    idFalsy ⟨none, 100⟩ = true ∧
      ((isNewMessage ⟨["m0"], 7⟩ ⟨none, 100⟩).1 = false ∧
        (isNewMessage ⟨["m0"], 7⟩ ⟨none, 100⟩).2 = ⟨["m0"], 7⟩) :=
  ⟨by decide, dedup_missing_id_rejected ⟨["m0"], 7⟩ ⟨none, 100⟩ (by decide)⟩

/-- C4: if the dedup window holds at most `maxProcessedMessageIds` ids
before an accept operation, it still does afterwards, and when the size
would exceed the capacity, the evicted id is the oldest inserted one (the
head of the insertion-ordered list) — strict FIFO eviction. -/
theorem dedup_window_bounded_fifo (st : DedupState) (m : Message)
    (h : st.processedMessageIds.length ≤ maxProcessedMessageIds) :
    (isNewMessage st m).2.processedMessageIds.length ≤ maxProcessedMessageIds
  ∧ (isNewMessage st m).2.processedMessageIds =
      (if (isNewMessage st m).1 = true then
        (if maxProcessedMessageIds < (st.processedMessageIds ++ [idStr m]).length
         then (st.processedMessageIds ++ [idStr m]).tail
         else st.processedMessageIds ++ [idStr m])
       else st.processedMessageIds) := by
  by_cases h1 : idFalsy m
  · simpa [isNewMessage, h1] using h
  · by_cases h2 : m.timestamp ≤ st.lastMessageCheck
    · simpa [isNewMessage, h1, h2] using h
    · by_cases h3 : idStr m ∈ st.processedMessageIds
      · simpa [isNewMessage, h1, h2, h3] using h
      · rw [isNewMessage_accept st m h1 h2 h3]
        refine ⟨?_, by simp⟩
        dsimp only
        split
        · rename_i hlen
          simp only [List.length_tail, List.length_append, List.length_singleton]
          omega
        · rename_i hlen
          simp only [List.length_append, List.length_singleton]
          omega

/-- Witness for C4 at an empty dedup window and a fresh message. -/
theorem dedup_window_bounded_fifo_witness :
    (⟨[], 0⟩ : DedupState).processedMessageIds.length ≤ maxProcessedMessageIds
  ∧ ((isNewMessage ⟨[], 0⟩ ⟨some "m1", 100⟩).2.processedMessageIds.length ≤
        maxProcessedMessageIds
    ∧ (isNewMessage ⟨[], 0⟩ ⟨some "m1", 100⟩).2.processedMessageIds =
        (if (isNewMessage ⟨[], 0⟩ ⟨some "m1", 100⟩).1 = true then
          (if maxProcessedMessageIds <
              (([] : List String) ++ [idStr ⟨some "m1", 100⟩]).length
           then (([] : List String) ++ [idStr ⟨some "m1", 100⟩]).tail
           else ([] : List String) ++ [idStr ⟨some "m1", 100⟩])
         else ([] : List String))) :=
  ⟨by decide, dedup_window_bounded_fifo ⟨[], 0⟩ ⟨some "m1", 100⟩ (by decide)⟩

/-! ## Association-list helpers

JS `Map`s and the MongoDB `bridge` collection (one document per key) are
modelled as association lists. -/

/-- Lookup in an association list. -/
def alookup {κ β : Type} [DecidableEq κ] (l : List (κ × β)) (k : κ) : Option β :=
  match l with
  | [] => none
  | (k', v) :: t => if k' = k then some v else alookup t k

/-- Remove a key from an association list (`Map.delete` / `deleteOne`). -/
def aerase {κ β : Type} [DecidableEq κ] (l : List (κ × β)) (k : κ) : List (κ × β) :=
  match l with
  | [] => []
  | (k', v) :: t => if k' = k then aerase t k else (k', v) :: aerase t k

/-- Insert or overwrite a key (`Map.set` / `updateOne` with upsert). -/
def aupsert {κ β : Type} [DecidableEq κ] (l : List (κ × β)) (k : κ) (v : β) :
    List (κ × β) :=
  match l with
  | [] => [(k, v)]
  | (k', v') :: t => if k' = k then (k, v) :: t else (k', v') :: aupsert t k v

theorem alookup_aupsert_self {κ β : Type} [DecidableEq κ]
    (l : List (κ × β)) (k : κ) (v : β) : alookup (aupsert l k v) k = some v := by
  induction l with
  | nil => simp [aupsert, alookup]
  | cons kv t ih =>
    by_cases h : kv.1 = k
    · simp [aupsert, alookup, h]
    · simp [aupsert, alookup, h, ih]

theorem alookup_aupsert_ne {κ β : Type} [DecidableEq κ]
    (l : List (κ × β)) (k k' : κ) (v : β) (hne : k ≠ k') :
    alookup (aupsert l k v) k' = alookup l k' := by
  induction l with
  | nil => simp [aupsert, alookup, hne]
  | cons kv t ih =>
    by_cases h : kv.1 = k
    · simp [aupsert, alookup, h, hne, ih]
    · simp only [aupsert, alookup, h, if_false]
      by_cases h' : kv.1 = k'
      · simp [alookup, h']
      · simp [alookup, h', ih]

theorem alookup_aerase_self {κ β : Type} [DecidableEq κ]
    (l : List (κ × β)) (k : κ) : alookup (aerase l k) k = none := by
  induction l with
  | nil => simp [aerase, alookup]
  | cons kv t ih =>
    obtain ⟨k1, v1⟩ := kv
    by_cases h : k1 = k
    · simpa [aerase, alookup, h] using ih
    · simpa [aerase, alookup, h] using ih

theorem alookup_aerase_ne {κ β : Type} [DecidableEq κ]
    (l : List (κ × β)) (k k' : κ) (hne : k ≠ k') :
    alookup (aerase l k) k' = alookup l k' := by
  induction l with
  | nil => simp [aerase, alookup]
  | cons kv t ih =>
    obtain ⟨k1, v1⟩ := kv
    by_cases h : k1 = k
    · simpa [aerase, alookup, h, hne] using ih
    · by_cases h' : k1 = k'
      · simp [aerase, alookup, h, h', Ne.symm hne]
      · simp [aerase, alookup, h, h', ih]

/-! ## Mapping store and stale-topic recovery (src/unnamed/part_001)

`TelegramBridge` keeps `chatMappings` (Instagram thread id to Telegram
topic id), `profilePicCache`, the persisted `bridge` collection (its
`chat`-typed documents), and `topicVerificationCache`.

The verification cache is a single JS `Map` whose keys are written with
two different types: `verifyTopicExists` reads and writes it keyed by the
numeric Telegram topic id (lines 384-395), while `saveChatMapping` deletes
the key `instagramThreadId`, a string (line 135). A JS `Map` key that is a
number is never equal to a string key, so the two kinds of keys live side
by side; `VKey` models this disjointness. -/

/-- A key of the `topicVerificationCache` map: either an Instagram thread
id (string) or a Telegram topic id (number). -/
inductive VKey where
  | thread (s : String)
  | topic (n : Nat)
deriving DecidableEq

/-- A persisted `chat` document's `data` field
(`{instagramThreadId, telegramTopicId, createdAt, lastActivity,
profilePicUrl?}`), keyed externally by `instagramThreadId`. -/
structure ChatRecord where
  telegramTopicId : Nat
  createdAt : Nat
  lastActivity : Nat
  profilePicUrl : Option String
deriving DecidableEq

/-- The bridge state relevant to mapping persistence and verification. -/
structure BridgeState where
  chatMappings : List (String × Nat)
  profilePicCache : List (String × String)
  storeChats : List (String × ChatRecord)
  topicVerificationCache : List (VKey × Bool)
deriving DecidableEq

/-- Model of `TelegramBridge.saveChatMapping` (src/unnamed/part_001 lines 111-140):
upserts the persisted `chat` document with a fresh `data` object whose
`createdAt` and `lastActivity` are both `new Date()` (the current time),
mirrors the mapping into `chatMappings` (and the profile-pic cache when a
url is given), and runs
`this.topicVerificationCache.delete(instagramThreadId)` — a delete keyed
by the thread id. -/
def saveChatMapping (st : BridgeState) (instagramThreadId : String)
    (telegramTopicId : Nat) (profilePicUrl : Option String) (now : Nat) :
    BridgeState :=
  { chatMappings := aupsert st.chatMappings instagramThreadId telegramTopicId,
    profilePicCache :=
      (match profilePicUrl with
      | some u => aupsert st.profilePicCache instagramThreadId u
      | none => st.profilePicCache),
    storeChats := aupsert st.storeChats instagramThreadId
      ⟨telegramTopicId, now, now, profilePicUrl⟩,
    topicVerificationCache :=
      aerase st.topicVerificationCache (VKey.thread instagramThreadId) }

/-- Outcome of the external `getChat` probe inside `verifyTopicExists`:
the call succeeds, fails definitively (error code 400 / "chat not found"),
or fails with some other, possibly transient, error. -/
inductive VerifyEnv where
  | ok
  | notFound
  | transientErr
deriving DecidableEq

/-- Model of `TelegramBridge.verifyTopicExists` (src/unnamed/part_001 lines
382-401): consult the cache at the topic-id key; on a miss probe
`getChat`, caching a definitive true/false answer and treating any other
error as "assume it exists" without caching. -/
def verifyTopicExists (st : BridgeState) (topicId : Nat) (env : VerifyEnv) :
    Bool × BridgeState :=
  match alookup st.topicVerificationCache (VKey.topic topicId) with
  | some b => (b, st)
  | none =>
    match env with
    | .ok =>
        (true,
          { st with
            topicVerificationCache :=
              aupsert st.topicVerificationCache (VKey.topic topicId) true })
    | .notFound =>
        (false,
          { st with
            topicVerificationCache :=
              aupsert st.topicVerificationCache (VKey.topic topicId) false })
    | .transientErr => (true, st)

/-- Environment of one `sendSimpleMessage` call: the verification probe
outcome and the Telegram message id returned by a successful send. -/
structure SendEnv where
  verify : VerifyEnv
  messageId : Nat
deriving DecidableEq

/-- Model of `TelegramBridge.sendSimpleMessage` (src/unnamed/part_001 lines
474-506), for a send that does not itself fail: verify the topic first;
if the topic is reported missing, delete the mapping from `chatMappings`,
`profilePicCache` and the store, and return `null` without sending or
retrying; otherwise send and return the message id. -/
def sendSimpleMessage (st : BridgeState) (topicId : Nat) (_text : String)
    (instagramThreadId : String) (env : SendEnv) : Option Nat × BridgeState :=
  let res := verifyTopicExists st topicId env.verify
  if res.1 then (some env.messageId, res.2)
  else
    (none,
      { res.2 with
        chatMappings := aerase res.2.chatMappings instagramThreadId,
        profilePicCache := aerase res.2.profilePicCache instagramThreadId,
        storeChats := aerase res.2.storeChats instagramThreadId })

/-- The synchronous first phase of `TelegramBridge.getOrCreateTopic`
(src/unnamed/part_001 lines 200-211): return the cached mapping if
present, else join an in-flight creation for the thread, else start a new
creation. `creating` is the key set of `this.creatingTopics`. -/
inductive TopicResolution where
  | cachedTopic (id : Nat)
  | awaitInFlight
  | startsCreation
deriving DecidableEq

def getOrCreateTopicPhase1 (st : BridgeState) (creating : List String)
    (threadId : String) : TopicResolution :=
  match alookup st.chatMappings threadId with
  | some id => .cachedTopic id
  | none => if threadId ∈ creating then .awaitInFlight else .startsCreation

/-- C10: every `saveChatMapping` upsert overwrites both `createdAt` and
`lastActivity` with the save time, so after a second save the persisted
`createdAt` is the second save's time, independent of the first save's. -/
theorem saveChatMapping_overwrites_createdAt (st : BridgeState)
    (tid : String) (topic1 topic2 : Nat) (pic1 pic2 : Option String)
    (t1 t2 : Nat) :
    alookup (saveChatMapping st tid topic1 pic1 t1).storeChats tid =
      some ⟨topic1, t1, t1, pic1⟩
  ∧ alookup
      (saveChatMapping (saveChatMapping st tid topic1 pic1 t1) tid topic2
        pic2 t2).storeChats tid = some ⟨topic2, t2, t2, pic2⟩ := by
  constructor
  · simp [saveChatMapping, alookup_aupsert_self]
  · simp [saveChatMapping, alookup_aupsert_self]

/-- C3 counterexample: the claim says the per-sub-channel verification
cache is invalidated on every mapping change, but `saveChatMapping`
deletes the thread-id key (a string) from a cache whose verification
entries are keyed by the numeric topic id, so the entry survives. With a
stale `false` cached for topic 7, saving the mapping `"t1" -> 7` leaves
the entry in place, and the next `sendSimpleMessage` drops the message
even though the `getChat` probe would report the topic as existing. -/
theorem verification_cache_not_invalidated_cex :
    alookup
        (saveChatMapping ⟨[], [], [], [(VKey.topic 7, false)]⟩ "t1" 7 none
          0).topicVerificationCache (VKey.topic 7) = some false
  ∧ (sendSimpleMessage
        (saveChatMapping ⟨[], [], [], [(VKey.topic 7, false)]⟩ "t1" 7 none 0)
        7 "hello" "t1" ⟨VerifyEnv.ok, 42⟩).1 = none := by
  constructor
  · rfl
  · rfl

/-- C3 (amended): before each send `sendSimpleMessage` verifies the topic
(using the per-topic-id verification cache); when verification reports it
missing, the mapping is deleted from the in-memory map and the persistent
store, the message is dropped (result `null`) with no synchronous retry,
and the next `getOrCreateTopic` call for the thread starts a fresh
creation. However, `saveChatMapping` invalidates the cache with the
thread-id key, which never matches a topic-id key, so verification
entries for sub-channel ids are untouched by mapping changes. -/
theorem stale_topic_recovery (st : BridgeState) (topicId : Nat)
    (text : String) (threadId : String) (env : SendEnv)
    (h : (verifyTopicExists st topicId env.verify).1 = false) :
    (sendSimpleMessage st topicId text threadId env).1 = none
  ∧ alookup (sendSimpleMessage st topicId text threadId env).2.chatMappings
      threadId = none
  ∧ alookup (sendSimpleMessage st topicId text threadId env).2.storeChats
      threadId = none
  ∧ getOrCreateTopicPhase1 (sendSimpleMessage st topicId text threadId env).2
      [] threadId = .startsCreation
  ∧ ∀ (tid : String) (tpc : Nat) (pic : Option String) (now n : Nat),
      alookup (saveChatMapping st tid tpc pic now).topicVerificationCache
          (VKey.topic n)
        = alookup st.topicVerificationCache (VKey.topic n) := by
  have hs : sendSimpleMessage st topicId text threadId env =
      (none,
        { (verifyTopicExists st topicId env.verify).2 with
          chatMappings :=
            aerase (verifyTopicExists st topicId env.verify).2.chatMappings
              threadId,
          profilePicCache :=
            aerase (verifyTopicExists st topicId env.verify).2.profilePicCache
              threadId,
          storeChats :=
            aerase (verifyTopicExists st topicId env.verify).2.storeChats
              threadId }) := by
    simp [sendSimpleMessage, h]
  refine ⟨by rw [hs], ?_, ?_, ?_, ?_⟩
  · rw [hs]; exact alookup_aerase_self _ _
  · rw [hs]; exact alookup_aerase_self _ _
  · rw [hs]
    simp [getOrCreateTopicPhase1, alookup_aerase_self]
  · intro tid tpc pic now n
    exact alookup_aerase_ne _ _ _ (fun hc => VKey.noConfusion hc)

/-- Witness for C3 (amended) at a concrete state whose verification probe
reports the topic missing. -/
theorem stale_topic_recovery_witness :
    (verifyTopicExists
        ⟨[("t1", 7)], [], [("t1", ⟨7, 0, 0, none⟩)], []⟩ 7
        (SendEnv.mk VerifyEnv.notFound 3).verify).1 = false
  ∧ ((sendSimpleMessage ⟨[("t1", 7)], [], [("t1", ⟨7, 0, 0, none⟩)], []⟩ 7
        "hello" "t1" ⟨VerifyEnv.notFound, 3⟩).1 = none
    ∧ alookup (sendSimpleMessage ⟨[("t1", 7)], [], [("t1", ⟨7, 0, 0, none⟩)], []⟩
        7 "hello" "t1" ⟨VerifyEnv.notFound, 3⟩).2.chatMappings "t1" = none
    ∧ alookup (sendSimpleMessage ⟨[("t1", 7)], [], [("t1", ⟨7, 0, 0, none⟩)], []⟩
        7 "hello" "t1" ⟨VerifyEnv.notFound, 3⟩).2.storeChats "t1" = none
    ∧ getOrCreateTopicPhase1
        (sendSimpleMessage ⟨[("t1", 7)], [], [("t1", ⟨7, 0, 0, none⟩)], []⟩
          7 "hello" "t1" ⟨VerifyEnv.notFound, 3⟩).2 [] "t1" = .startsCreation
    ∧ ∀ (tid : String) (tpc : Nat) (pic : Option String) (now n : Nat),
        alookup
            (saveChatMapping ⟨[("t1", 7)], [], [("t1", ⟨7, 0, 0, none⟩)], []⟩
              tid tpc pic now).topicVerificationCache (VKey.topic n)
          = alookup
              (⟨[("t1", 7)], [], [("t1", ⟨7, 0, 0, none⟩)], []⟩ :
                BridgeState).topicVerificationCache (VKey.topic n)) :=
  ⟨by rfl,
    stale_topic_recovery ⟨[("t1", 7)], [], [("t1", ⟨7, 0, 0, none⟩)], []⟩ 7
      "hello" "t1" ⟨VerifyEnv.notFound, 3⟩ (by rfl)⟩

/-! ## Content filter and text payloads of the two pipelines

Forward (`sendToTelegram`, src/unnamed/part_001 lines 434-449): the
filter lowercases and trims the message text and checks
`textLower.startsWith(word)` for each stored filter word — the word
itself is not lowercased. On a hit the message is silently dropped;
otherwise the text is passed unchanged to `sendSimpleMessage`.

Reverse (`handleTelegramMessage`, src/unnamed/part_001 lines 592-611; the
enhanced bridge's `handleTelegramText`, TelegramBridge.js lines 309-319,
behaves the same on text): the text is trimmed, the trimmed text is
lowercased for the filter check; on a hit the message is acknowledged
with the blocked-marker reaction and processing stops; otherwise the
trimmed (not lowercased) text is sent to Instagram. -/

/-- JS `String.prototype.toLowerCase` restricted to character-wise
lowercasing (ASCII-faithful), written over the character list so that it
evaluates inside the kernel. -/
def jsToLower (s : String) : String := ⟨s.data.map Char.toLower⟩

/-- JS `String.prototype.trim`: strip whitespace from both ends. -/
def jsTrim (s : String) : String :=
  ⟨((s.data.dropWhile Char.isWhitespace).reverse.dropWhile
      Char.isWhitespace).reverse⟩

/-- JS `String.prototype.startsWith`. -/
def strStartsWith (s pre : String) : Bool := pre.data.isPrefixOf s.data

/-- What the forward pipeline does with a text message after topic
resolution: drop on a filter hit, otherwise send the text verbatim. -/
inductive ForwardAction where
  | dropped
  | sentText (text : String)
deriving DecidableEq

/-- The filter-and-dispatch tail of `TelegramBridge.sendToTelegram` for a
`text`-typed message (src/unnamed/part_001 lines 434-449). -/
def sendToTelegramText (filters : List String) (text : String) :
    ForwardAction :=
  if filters.any (fun word => strStartsWith (jsTrim (jsToLower text)) word)
  then .dropped
  else .sentText text

/-- What the reverse pipeline does with a Telegram text message once the
thread is resolved: acknowledge as filtered and stop, or send to
Instagram. -/
inductive ReverseAction where
  | ackFiltered
  | sentToInstagram (text : String)
deriving DecidableEq

/-- The filter-and-text branch of `TelegramBridge.handleTelegramMessage`
(src/unnamed/part_001 lines 592-607). -/
def handleTelegramText (filters : List String) (msgText : String) :
    ReverseAction :=
  let originalText := jsTrim msgText
  let textLower := jsToLower originalText
  if filters.any (fun word => strStartsWith textLower word) then .ackFiltered
  else .sentToInstagram originalText

/-- Modelled from the spec's words, for comparison with the code: a
blocked term matches when the trimmed text, compared case-insensitively
with the term, starts with it. -/
def specCaseInsensitiveHit (filters : List String) (text : String) : Bool :=
  filters.any (fun word =>
    strStartsWith (jsToLower (jsTrim text)) (jsToLower word))

/-- C5 counterexample: with the blocked term `"HI"` stored, the message
`"Hi there"` matches the spec's case-insensitive prefix test, yet both
pipelines deliver it: the code lowercases only the message text, never
the stored term, so a term containing an uppercase letter cannot match. -/
theorem content_filter_case_cex :
    specCaseInsensitiveHit ["HI"] "Hi there" = true
  ∧ sendToTelegramText ["HI"] "Hi there" = .sentText "Hi there"
  ∧ handleTelegramText ["HI"] "Hi there" = .sentToInstagram "Hi there" := by
  refine ⟨by decide, by decide, by decide⟩

/-- C5 (amended): blocked terms are matched verbatim against the
lowercased, trimmed message text (so the comparison is case-insensitive
in the message text only; a term stored with an uppercase letter never
matches). Whenever the normalized text starts with a stored term, the
forward pipeline drops the message silently and the reverse pipeline
acknowledges it as filtered and stops before sending. -/
theorem content_filter_blocks (filters : List String) (text word : String)
    (hmem : word ∈ filters)
    (hf : strStartsWith (jsTrim (jsToLower text)) word = true)
    (hr : strStartsWith (jsToLower (jsTrim text)) word = true) :
    sendToTelegramText filters text = .dropped
  ∧ handleTelegramText filters text = .ackFiltered := by
  constructor
  · unfold sendToTelegramText
    rw [if_pos]
    exact List.any_eq_true.mpr ⟨word, hmem, hf⟩
  · unfold handleTelegramText
    rw [if_pos]
    exact List.any_eq_true.mpr ⟨word, hmem, hr⟩

/-- Witness for C5 (amended) on a concrete blocked term and message. -/
theorem content_filter_blocks_witness :
    "spam" ∈ ["spam"]
  ∧ strStartsWith (jsTrim (jsToLower " Spam alert")) "spam" = true
  ∧ strStartsWith (jsToLower (jsTrim " Spam alert")) "spam" = true
  ∧ (sendToTelegramText ["spam"] " Spam alert" = .dropped
    ∧ handleTelegramText ["spam"] " Spam alert" = .ackFiltered) :=
  ⟨by decide, by decide, by decide,
    content_filter_blocks ["spam"] " Spam alert" "spam" (by decide)
      (by decide) (by decide)⟩

/-! ## Plain-text round trip (C7)

Forward, Instagram to Telegram: `sendToTelegram` passes `message.text`
unchanged into `sendSimpleMessage`, which hands it verbatim to the
Telegram API (src/unnamed/part_001 lines 444-449 and 489-491).

Reverse, Telegram to Instagram: `handleTelegramMessage` sends
`originalText = msg.text?.trim()` (src/unnamed/part_001 lines 593 and
605); the enhanced bridge's `handleTelegramText` likewise sends
`msg.text.trim()` (src/enhanced-bot/TelegramBridge.js lines 311-312). -/

/-- Text payload produced by the forward send for a text message. -/
def forwardTextPayload (text : String) : String := text

/-- Text payload produced by the reverse send for a text message. -/
def reverseTextPayload (msgText : String) : String := jsTrim msgText

/-- Round trip of a plain-text message: source to destination and back. -/
def roundTripText (text : String) : String :=
  reverseTextPayload (forwardTextPayload text)

/-- C7 counterexample: a text with leading and trailing whitespace is not
byte-identical after the round trip — the reverse send trims it. -/
theorem round_trip_not_identical_cex :
    roundTripText " hi " = "hi" ∧ " hi " ≠ "hi" := by
  refine ⟨by decide, by decide⟩

/-- C7 (amended): the forward send preserves the text byte-identically;
the reverse send trims leading and trailing whitespace, so the round trip
is byte-identical exactly for texts that are already trimmed. -/
theorem round_trip_identical_of_trimmed (text : String)
    (h : jsTrim text = text) :
    roundTripText text = text ∧ forwardTextPayload text = text := by
  refine ⟨?_, rfl⟩
  unfold roundTripText reverseTextPayload forwardTextPayload
  exact h

/-- Witness for C7 (amended) at a concrete trimmed text. -/
theorem round_trip_identical_of_trimmed_witness :
    jsTrim "hello world" = "hello world"
  ∧ (roundTripText "hello world" = "hello world"
    ∧ forwardTextPayload "hello world" = "hello world") :=
  ⟨by decide, round_trip_identical_of_trimmed "hello world" (by decide)⟩

/-! ## Voice conversion temp-file discipline (C6)

`EnhancedTelegramBridge.handleTelegramVoice`
(src/enhanced-bot/TelegramBridge.js lines 321-367): download the voice
note, write it to `originalPath` in the temp dir, transcode it with
ffmpeg to `convertedPath` (mono, 44.1 kHz, AAC), send the result to
Instagram, then unlink both files. The unlink calls sit inside the `try`
block after the send; any thrown error (ffmpeg rejection, send failure)
jumps to the `catch`, which only sets the error reaction. -/

/-- Environment of one voice-conversion run: whether the ffmpeg transcode
succeeds and whether the Instagram send succeeds. -/
structure VoiceEnv where
  transcodeOk : Bool
  sendOk : Bool
deriving DecidableEq

/-- The reaction left on the Telegram message when the handler returns. -/
inductive VoiceReaction where
  | thumbsUp
  | errorMark
deriving DecidableEq

/-- Result of a voice-conversion run: the temp files remaining on disk
and the final reaction. -/
structure VoiceResult where
  tempFiles : List String
  reaction : VoiceReaction
deriving DecidableEq

/-- Name of the downloaded input file (`voice_<ts>.ogg`). -/
def originalPath : String := "voice_orig.ogg"

/-- Name of the transcoded output file (`voice_<ts>.m4a`). -/
def convertedPath : String := "voice_conv.m4a"

/-- Model of `EnhancedTelegramBridge.handleTelegramVoice`
(src/enhanced-bot/TelegramBridge.js lines 321-367) as a function of the
environment and the temp directory contents. On transcode failure the
ffmpeg promise rejects before `convertedPath` is produced, control jumps
to the catch block, and no unlink runs; on send failure both files are
already on disk and likewise stay; only the fully successful path reaches
the cleanup. -/
def handleTelegramVoice (env : VoiceEnv) (tempFiles0 : List String) :
    VoiceResult :=
  let files1 := tempFiles0 ++ [originalPath]
  if env.transcodeOk then
    let files2 := files1 ++ [convertedPath]
    if env.sendOk then
      ⟨(files2.erase originalPath).erase convertedPath, .thumbsUp⟩
    else ⟨files2, .errorMark⟩
  else ⟨files1, .errorMark⟩

/-- C6: evaluation of the voice handler at the failing input. A transcode
failure leaves the downloaded input file in the temp directory (the claim
and the spec require that no temporary files remain). The fully
successful path does clean up both files. -/
theorem voice_transcode_failure_leaks_temp :
    handleTelegramVoice ⟨false, true⟩ [] = ⟨[originalPath], .errorMark⟩
  ∧ handleTelegramVoice ⟨false, true⟩ [] ≠ (⟨[], .errorMark⟩ : VoiceResult)
  ∧ handleTelegramVoice ⟨true, true⟩ [] = ⟨[], .thumbsUp⟩ := by
  refine ⟨by decide, by decide, by decide⟩

/-! ## Shutdown (C8)

`TelegramBridge.shutdown` (src/unnamed/part_001 lines 799-817) and
`EnhancedTelegramBridge.shutdown` (src/enhanced-bot/TelegramBridge.js
lines 446-461) both do exactly two things: stop Telegram polling and
empty the temp directory. Neither consults `creatingTopics`, so in-flight
topic creations are not awaited. -/

/-- The lifecycle state touched by `shutdown`: whether Telegram polling
is active, the temp-directory contents, and the keys of
`creatingTopics` (thread ids whose creation promise is still pending). -/
structure LifecycleState where
  pollingActive : Bool
  tempFiles : List String
  pendingCreations : List String
deriving DecidableEq

/-- Model of `shutdown`: `stopPolling()` then `fs.emptyDir(this.tempDir)`; the
`creatingTopics` table is never read or awaited. -/
def shutdown (st : LifecycleState) : LifecycleState :=
  { pollingActive := false, tempFiles := [],
    pendingCreations := st.pendingCreations }

/-- C8 counterexample: with one topic creation in flight, the bridge
finishes `shutdown` (reaching its stopped state) while the creation is
still pending — the claim requires in-flight creations to be awaited to
completion before the stopped state is reached. -/
theorem shutdown_does_not_await_creations_cex :
    (shutdown ⟨true, ["voice_orig.ogg"], ["t1"]⟩).pendingCreations = ["t1"]
  ∧ (shutdown ⟨true, ["voice_orig.ogg"], ["t1"]⟩).pendingCreations ≠ [] := by
  refine ⟨by decide, by decide⟩

/-- C8 (amended): on an explicit stop request, shutdown detaches the
Telegram listener (stops polling) and clears the temp directory, but does
not await in-flight Topic Mapper creations: the set of pending creations
is exactly what it was before the stop. -/
theorem shutdown_behavior (st : LifecycleState) :
    (shutdown st).pollingActive = false
  ∧ (shutdown st).tempFiles = []
  ∧ (shutdown st).pendingCreations = st.pendingCreations := by
  refine ⟨rfl, rfl, rfl⟩

/-! ## Single-flight topic creation (C2)

`getOrCreateTopic` (src/unnamed/part_001 lines 200-277 and
src/enhanced-bot/TelegramBridge.js lines 138-180) runs on the Node.js
event loop: code between two `await`s is atomic, interleaving happens
only at `await` points. The function:

1. synchronously returns the cached mapping, or joins the promise stored
   in `creatingTopics`, or starts the async creation body — the body
   runs synchronously up to its first `await`, control returns, and the
   new promise is stored in `creatingTopics`, all without any
   intervening `await` (one atomic step);
2. the creation body awaits the external `createForumTopic` call, which
   resolves with a topic id or throws (the error paths inside
   `saveUserMapping`, the profile-pic fetch and `sendWelcomeMessage`
   are caught internally and do not reject the promise);
3. on success the body calls `saveChatMapping`. That function awaits
   `collection.updateOne` and only then runs `chatMappings.set`; its
   own try/catch swallows an `updateOne` rejection (part_001 lines
   137-139, TelegramBridge.js lines 133-135), and its
   `if (!this.collection) return` guard returns early, so on either of
   those paths `chatMappings` is never set — yet `getOrCreateTopic`
   still proceeds to `return topic.message_thread_id` (part_001 line
   266, TelegramBridge.js line 169). Afterwards the `finally` clause
   removes the `creatingTopics` entry as the promise resolves; on a
   `createForumTopic` failure the mapping is untouched, the entry is
   removed, and the promise resolves `null`.

The model fixes one thread id and lets `n` concurrent calls (tasks)
interleave arbitrarily at those atomic-step boundaries. The step
relation is indexed by a boolean: at `true` it is the faithful model,
including the swallowed-save-failure transition `finishNoSave`; at
`false` it is its restriction to executions in which every `updateOne`
inside `saveChatMapping` succeeds. -/

namespace SingleFlight

/-- The control point of one `getOrCreateTopic` call between two awaits.
`p` is the promise stored in `creatingTopics`, `i` a topic id. -/
inductive TaskState where
  | start
  | awaiting (p : Nat)
  | creatingPre (p : Nat)
  | creatingGot (p : Nat) (i : Nat)
  | creatingSaved (p : Nat) (i : Nat)
  | done (r : Option Nat)
deriving DecidableEq

/-- The promise a task is currently creating, if it is the creator. -/
def creatorOf : TaskState → Option Nat
  | .creatingPre p => some p
  | .creatingGot p _ => some p
  | .creatingSaved p _ => some p
  | _ => none

/-- Shared state of the bridge for the fixed thread id: the
`chatMappings` entry, the `creatingTopics` entry (the in-flight promise,
if any), the resolved promises with their values, a fresh-promise
counter, and the control points of all concurrent calls. -/
structure Config where
  mapping : Option Nat
  inFlight : Option Nat
  res : List (Nat × Option Nat)
  nextP : Nat
  tasks : List TaskState
deriving DecidableEq

/-- One atomic event-loop step of the system of concurrent
`getOrCreateTopic` calls for the fixed thread. The boolean index is
`true` for the faithful relation and `false` for its restriction to
executions where every mapping save succeeds:

- `startCached`/`startAwait`/`startCreate`: the synchronous entry of
  call `k` (lines 200-211 plus the synchronous prefix of the creation
  body and the `creatingTopics.set`, which happen without an
  intervening await);
- `createFail`: the awaited `createForumTopic` rejects (or the chat id
  is unconfigured): the catch returns `null`, the `finally` removes the
  `creatingTopics` entry, and the promise resolves `null`;
- `createOk`: `createForumTopic` resolves with topic id `i`;
- `saveMapping`: `saveChatMapping` reaches its synchronous
  `chatMappings.set` after its `updateOne` await succeeded;
- `finish`: the body returns: the `finally` removes the
  `creatingTopics` entry and the promise resolves with the id;
- `finishNoSave`: `updateOne` rejects (or the collection is absent),
  `saveChatMapping` swallows the error, so `chatMappings.set` never
  runs; the body still returns the topic id, the `finally` removes the
  `creatingTopics` entry, and the promise resolves with the id while
  the mapping stays absent;
- `awaitDone`: a call awaiting a resolved promise resumes with its
  value. -/
inductive Step : Bool → Config → Config → Prop where
  | startCached (saveFail : Bool) (c : Config) (k i : Nat)
      (ht : c.tasks[k]? = some .start) (hm : c.mapping = some i) :
      Step saveFail c { c with tasks := c.tasks.set k (.done (some i)) }
  | startAwait (saveFail : Bool) (c : Config) (k p : Nat)
      (ht : c.tasks[k]? = some .start) (hm : c.mapping = none)
      (hf : c.inFlight = some p) :
      Step saveFail c { c with tasks := c.tasks.set k (.awaiting p) }
  | startCreate (saveFail : Bool) (c : Config) (k : Nat)
      (ht : c.tasks[k]? = some .start) (hm : c.mapping = none)
      (hf : c.inFlight = none) :
      Step saveFail c
        { c with
          inFlight := some c.nextP,
          nextP := c.nextP + 1,
          tasks := c.tasks.set k (.creatingPre c.nextP) }
  | createFail (saveFail : Bool) (c : Config) (k p : Nat)
      (ht : c.tasks[k]? = some (.creatingPre p)) :
      Step saveFail c
        { c with
          inFlight := none,
          res := (p, none) :: c.res,
          tasks := c.tasks.set k (.done none) }
  | createOk (saveFail : Bool) (c : Config) (k p i : Nat)
      (ht : c.tasks[k]? = some (.creatingPre p)) :
      Step saveFail c { c with tasks := c.tasks.set k (.creatingGot p i) }
  | saveMapping (saveFail : Bool) (c : Config) (k p i : Nat)
      (ht : c.tasks[k]? = some (.creatingGot p i)) :
      Step saveFail c
        { c with
          mapping := some i,
          tasks := c.tasks.set k (.creatingSaved p i) }
  | finish (saveFail : Bool) (c : Config) (k p i : Nat)
      (ht : c.tasks[k]? = some (.creatingSaved p i)) :
      Step saveFail c
        { c with
          inFlight := none,
          res := (p, some i) :: c.res,
          tasks := c.tasks.set k (.done (some i)) }
  | finishNoSave (c : Config) (k p i : Nat)
      (ht : c.tasks[k]? = some (.creatingGot p i)) :
      Step true c
        { c with
          inFlight := none,
          res := (p, some i) :: c.res,
          tasks := c.tasks.set k (.done (some i)) }
  | awaitDone (saveFail : Bool) (c : Config) (k p : Nat) (r : Option Nat)
      (ht : c.tasks[k]? = some (.awaiting p))
      (hr : alookup c.res p = some r) :
      Step saveFail c { c with tasks := c.tasks.set k (.done r) }

/-- Initial configuration: no mapping for the thread, no in-flight
creation, `n` concurrent calls about to enter `getOrCreateTopic`. -/
def init (n : Nat) : Config := ⟨none, none, [], 0, List.replicate n .start⟩

/-- Configurations reachable by interleaving the `n` calls under the
faithful step relation (mapping saves may silently fail). -/
def Reachable (n : Nat) (c : Config) : Prop :=
  Relation.ReflTransGen (Step true) (init n) c

/-- Configurations reachable when every `updateOne` inside
`saveChatMapping` succeeds (the `finishNoSave` transition never fires). -/
def ReachableSaved (n : Nat) (c : Config) : Prop :=
  Relation.ReflTransGen (Step false) (init n) c

/-- Per-task invariant, relative to the current `chatMappings` entry:
a call that completed with a topic id, or a creator that has saved its
mapping, agrees with the mapping; a creator that has not yet saved its
mapping can only exist while the mapping is absent. This only holds
when mapping saves succeed. -/
def taskOK (m : Option Nat) : TaskState → Prop
  | .done (some i) => m = some i
  | .creatingSaved _ i => m = some i
  | .creatingPre _ => m = none
  | .creatingGot _ _ => m = none
  | _ => True

/-- Creator-tracking invariant, preserved by the faithful relation: at
most one creator exists, and the creator's promise is the in-flight
one. -/
structure CInv (c : Config) : Prop where
  creator_unique : ∀ (k1 k2 : Nat) (t1 t2 : TaskState) (p1 p2 : Nat),
    c.tasks[k1]? = some t1 → c.tasks[k2]? = some t2 →
    creatorOf t1 = some p1 → creatorOf t2 = some p2 → k1 = k2
  creator_inflight : ∀ (k : Nat) (t : TaskState) (p : Nat),
    c.tasks[k]? = some t → creatorOf t = some p → c.inFlight = some p

/-- Full invariant for save-success executions: every task and every
resolved promise agrees with the mapping, on top of the creator
tracking. -/
structure Inv (c : Config) : Prop where
  tasks_ok : ∀ (k : Nat) (t : TaskState), c.tasks[k]? = some t →
    taskOK c.mapping t
  res_ok : ∀ (p i : Nat), alookup c.res p = some (some i) →
    c.mapping = some i
  core : CInv c

theorem lt_length_of_getElem? {l : List TaskState} {k : Nat}
    {t : TaskState} (h : l[k]? = some t) : k < l.length := by
  by_contra hge
  rw [List.getElem?_eq_none (Nat.le_of_not_lt hge)] at h
  cases h

theorem set_lookup_cases {l : List TaskState} {k : Nat} {a : TaskState}
    (hk : k < l.length) (j : Nat) {t : TaskState}
    (h : (l.set k a)[j]? = some t) :
    (j = k ∧ t = a) ∨ (j ≠ k ∧ l[j]? = some t) := by
  by_cases hjk : j = k
  · subst hjk
    rw [List.getElem?_set_self hk] at h
    exact Or.inl ⟨rfl, (Option.some.inj h).symm⟩
  · rw [List.getElem?_set_ne (Ne.symm hjk)] at h
    exact Or.inr ⟨hjk, h⟩

theorem inv_init (n : Nat) : Inv (init n) := by
  refine ⟨?_, ?_, ?_, ?_⟩
  · intro k t h
    simp only [init, List.getElem?_replicate] at h
    split at h
    · cases Option.some.inj h
      trivial
    · cases h
  · intro p i h
    simp [init, alookup] at h
  · intro k1 k2 t1 t2 p1 p2 h1 h2 hc1 hc2
    simp only [init, List.getElem?_replicate] at h1
    split at h1
    · cases Option.some.inj h1
      simp [creatorOf] at hc1
    · cases h1
  · intro k t p h hc
    simp only [init, List.getElem?_replicate] at h
    split at h
    · cases Option.some.inj h
      simp [creatorOf] at hc
    · cases h

/-- Unfolding of `alookup` on a cons cell. -/
theorem alookup_cons {κ β : Type} [DecidableEq κ] (k0 : κ) (v : β)
    (l : List (κ × β)) (k : κ) :
    alookup ((k0, v) :: l) k = if k0 = k then some v else alookup l k := rfl

theorem unique_of_set_noncreator {c : Config} (hinv : CInv c) {k : Nat}
    (hk : k < c.tasks.length) {a : TaskState} (ha : creatorOf a = none) :
    ∀ (k1 k2 : Nat) (t1 t2 : TaskState) (p1 p2 : Nat),
      (c.tasks.set k a)[k1]? = some t1 → (c.tasks.set k a)[k2]? = some t2 →
      creatorOf t1 = some p1 → creatorOf t2 = some p2 → k1 = k2 := by
  intro k1 k2 t1 t2 p1 p2 h1 h2 hc1 hc2
  rcases set_lookup_cases hk k1 h1 with ⟨rfl, rfl⟩ | ⟨hne1, hold1⟩
  · rw [ha] at hc1
    exact Option.noConfusion hc1
  · rcases set_lookup_cases hk k2 h2 with ⟨rfl, rfl⟩ | ⟨hne2, hold2⟩
    · rw [ha] at hc2
      exact Option.noConfusion hc2
    · exact hinv.creator_unique k1 k2 t1 t2 p1 p2 hold1 hold2 hc1 hc2

theorem inflight_of_set_noncreator {c : Config} (hinv : CInv c) {k : Nat}
    (hk : k < c.tasks.length) {a : TaskState} (ha : creatorOf a = none) :
    ∀ (j : Nat) (t : TaskState) (p : Nat), (c.tasks.set k a)[j]? = some t →
      creatorOf t = some p → c.inFlight = some p := by
  intro j t p hj hc
  rcases set_lookup_cases hk j hj with ⟨rfl, rfl⟩ | ⟨hne, hold⟩
  · rw [ha] at hc
    exact Option.noConfusion hc
  · exact hinv.creator_inflight j t p hold hc

theorem no_creator_of_set {c : Config} (hinv : CInv c) {k pk : Nat}
    {tk : TaskState} (ht : c.tasks[k]? = some tk)
    (hck : creatorOf tk = some pk) {a : TaskState}
    (ha : creatorOf a = none) :
    ∀ (j : Nat) (t : TaskState) (p : Nat), (c.tasks.set k a)[j]? = some t →
      creatorOf t = some p → False := by
  intro j t p hj hc
  rcases set_lookup_cases (lt_length_of_getElem? ht) j hj with
    ⟨rfl, rfl⟩ | ⟨hne, hold⟩
  · rw [ha] at hc
    exact Option.noConfusion hc
  · exact hne (hinv.creator_unique j k t tk p pk hold ht hc hck)

theorem unique_of_set_samecreator {c : Config} (hinv : CInv c) {k pk : Nat}
    {tk : TaskState} (ht : c.tasks[k]? = some tk)
    (hck : creatorOf tk = some pk) {a : TaskState} :
    ∀ (k1 k2 : Nat) (t1 t2 : TaskState) (p1 p2 : Nat),
      (c.tasks.set k a)[k1]? = some t1 → (c.tasks.set k a)[k2]? = some t2 →
      creatorOf t1 = some p1 → creatorOf t2 = some p2 → k1 = k2 := by
  intro k1 k2 t1 t2 p1 p2 h1 h2 hc1 hc2
  have hk := lt_length_of_getElem? ht
  rcases set_lookup_cases hk k1 h1 with ⟨heq1, hte1⟩ | ⟨hne1, hold1⟩
  · rcases set_lookup_cases hk k2 h2 with ⟨heq2, hte2⟩ | ⟨hne2, hold2⟩
    · exact heq1.trans heq2.symm
    · exact heq1.trans
        (hinv.creator_unique k2 k t2 tk p2 pk hold2 ht hc2 hck).symm
  · rcases set_lookup_cases hk k2 h2 with ⟨heq2, hte2⟩ | ⟨hne2, hold2⟩
    · exact (hinv.creator_unique k1 k t1 tk p1 pk hold1 ht hc1 hck).trans
        heq2.symm
    · exact hinv.creator_unique k1 k2 t1 t2 p1 p2 hold1 hold2 hc1 hc2

theorem inflight_of_set_samecreator {c : Config} (hinv : CInv c) {k pk : Nat}
    {tk : TaskState} (ht : c.tasks[k]? = some tk)
    (hck : creatorOf tk = some pk) {a : TaskState}
    (ha : creatorOf a = some pk) :
    ∀ (j : Nat) (t : TaskState) (p : Nat), (c.tasks.set k a)[j]? = some t →
      creatorOf t = some p → c.inFlight = some p := by
  intro j t p hj hc
  rcases set_lookup_cases (lt_length_of_getElem? ht) j hj with
    ⟨heq, rfl⟩ | ⟨hne, hold⟩
  · rw [ha] at hc
    exact (Option.some.inj hc) ▸ hinv.creator_inflight k tk pk ht hck
  · exact hinv.creator_inflight j t p hold hc

/-- The creator-tracking invariant is preserved by every faithful step,
including the swallowed-save-failure transition. -/
theorem cinv_step {b : Bool} {c c' : Config} (hinv : CInv c)
    (hs : Step b c c') : CInv c' := by
  cases hs with
  | startCached sf c k i ht hm =>
    exact ⟨unique_of_set_noncreator hinv (lt_length_of_getElem? ht) rfl,
      inflight_of_set_noncreator hinv (lt_length_of_getElem? ht) rfl⟩
  | startAwait sf c k p ht hm hf =>
    exact ⟨unique_of_set_noncreator hinv (lt_length_of_getElem? ht) rfl,
      inflight_of_set_noncreator hinv (lt_length_of_getElem? ht) rfl⟩
  | startCreate sf c k ht hm hf =>
    have hk := lt_length_of_getElem? ht
    refine ⟨?_, ?_⟩
    · intro k1 k2 t1 t2 p1 p2 h1 h2 hc1 hc2
      rcases set_lookup_cases hk k1 h1 with ⟨heq1, hte1⟩ | ⟨hne1, hold1⟩
      · rcases set_lookup_cases hk k2 h2 with ⟨heq2, hte2⟩ | ⟨hne2, hold2⟩
        · exact heq1.trans heq2.symm
        · have := hinv.creator_inflight k2 t2 p2 hold2 hc2
          rw [hf] at this
          exact Option.noConfusion this
      · have := hinv.creator_inflight k1 t1 p1 hold1 hc1
        rw [hf] at this
        exact Option.noConfusion this
    · intro j t p hj hc
      rcases set_lookup_cases hk j hj with ⟨heq, rfl⟩ | ⟨hne, hold⟩
      · exact hc
      · have := hinv.creator_inflight j t p hold hc
        rw [hf] at this
        exact Option.noConfusion this
  | createFail sf c k p ht =>
    exact ⟨fun k1 k2 t1 t2 p1 p2 h1 h2 hc1 hc2 =>
        (@no_creator_of_set c hinv k p (.creatingPre p) ht rfl (.done none)
          rfl k1 t1 p1 h1 hc1).elim,
      fun j t p0 hj hc =>
        (@no_creator_of_set c hinv k p (.creatingPre p) ht rfl (.done none)
          rfl j t p0 hj hc).elim⟩
  | createOk sf c k p i ht =>
    exact ⟨unique_of_set_samecreator hinv ht rfl,
      inflight_of_set_samecreator hinv ht rfl rfl⟩
  | saveMapping sf c k p i ht =>
    exact ⟨unique_of_set_samecreator hinv ht rfl,
      inflight_of_set_samecreator hinv ht rfl rfl⟩
  | finish sf c k p i ht =>
    exact ⟨fun k1 k2 t1 t2 p1 p2 h1 h2 hc1 hc2 =>
        (@no_creator_of_set c hinv k p (.creatingSaved p i) ht rfl
          (.done (some i)) rfl k1 t1 p1 h1 hc1).elim,
      fun j t p0 hj hc =>
        (@no_creator_of_set c hinv k p (.creatingSaved p i) ht rfl
          (.done (some i)) rfl j t p0 hj hc).elim⟩
  | finishNoSave c k p i ht =>
    exact ⟨fun k1 k2 t1 t2 p1 p2 h1 h2 hc1 hc2 =>
        (@no_creator_of_set c hinv k p (.creatingGot p i) ht rfl
          (.done (some i)) rfl k1 t1 p1 h1 hc1).elim,
      fun j t p0 hj hc =>
        (@no_creator_of_set c hinv k p (.creatingGot p i) ht rfl
          (.done (some i)) rfl j t p0 hj hc).elim⟩
  | awaitDone sf c k p r ht hr =>
    exact ⟨unique_of_set_noncreator hinv (lt_length_of_getElem? ht) rfl,
      inflight_of_set_noncreator hinv (lt_length_of_getElem? ht) rfl⟩

/-- The full invariant is preserved by every save-success step. -/
theorem inv_step {c c' : Config} (hinv : Inv c) (hs : Step false c c') :
    Inv c' := by
  cases hs with
  | startCached sf c k i ht hm =>
    have hk := lt_length_of_getElem? ht
    refine ⟨?_, hinv.res_ok, unique_of_set_noncreator hinv.core hk rfl,
      inflight_of_set_noncreator hinv.core hk rfl⟩
    intro j t hj
    rcases set_lookup_cases hk j hj with ⟨rfl, rfl⟩ | ⟨hne, hold⟩
    · exact hm
    · exact hinv.tasks_ok j t hold
  | startAwait sf c k p ht hm hf =>
    have hk := lt_length_of_getElem? ht
    refine ⟨?_, hinv.res_ok, unique_of_set_noncreator hinv.core hk rfl,
      inflight_of_set_noncreator hinv.core hk rfl⟩
    intro j t hj
    rcases set_lookup_cases hk j hj with ⟨rfl, rfl⟩ | ⟨hne, hold⟩
    · trivial
    · exact hinv.tasks_ok j t hold
  | startCreate sf c k ht hm hf =>
    have hk := lt_length_of_getElem? ht
    refine ⟨?_, hinv.res_ok,
      (cinv_step hinv.core (Step.startCreate false c k ht hm hf)).creator_unique,
      (cinv_step hinv.core (Step.startCreate false c k ht hm hf)).creator_inflight⟩
    intro j t hj
    rcases set_lookup_cases hk j hj with ⟨rfl, rfl⟩ | ⟨hne, hold⟩
    · exact hm
    · exact hinv.tasks_ok j t hold
  | createFail sf c k p ht =>
    have hk := lt_length_of_getElem? ht
    refine ⟨?_, ?_, ?_, ?_⟩
    · intro j t hj
      rcases set_lookup_cases hk j hj with ⟨rfl, rfl⟩ | ⟨hne, hold⟩
      · trivial
      · exact hinv.tasks_ok j t hold
    · intro q i hq
      rw [alookup_cons] at hq
      split at hq
      · exact Option.noConfusion (Option.some.inj hq)
      · exact hinv.res_ok q i hq
    · intro k1 k2 t1 t2 p1 p2 h1 h2 hc1 hc2
      exact (@no_creator_of_set c hinv.core k p (.creatingPre p) ht rfl
        (.done none) rfl k1 t1 p1 h1 hc1).elim
    · intro j t p0 hj hc
      exact (@no_creator_of_set c hinv.core k p (.creatingPre p) ht rfl
        (.done none) rfl j t p0 hj hc).elim
  | createOk sf c k p i ht =>
    have hk := lt_length_of_getElem? ht
    refine ⟨?_, hinv.res_ok, unique_of_set_samecreator hinv.core ht rfl,
      inflight_of_set_samecreator hinv.core ht rfl rfl⟩
    intro j t hj
    rcases set_lookup_cases hk j hj with ⟨heq, rfl⟩ | ⟨hne, hold⟩
    · exact hinv.tasks_ok k (.creatingPre p) ht
    · exact hinv.tasks_ok j t hold
  | saveMapping sf c k p i ht =>
    have hk := lt_length_of_getElem? ht
    have hmapnone : c.mapping = none := hinv.tasks_ok k (.creatingGot p i) ht
    refine ⟨?_, ?_, unique_of_set_samecreator hinv.core ht rfl,
      inflight_of_set_samecreator hinv.core ht rfl rfl⟩
    · intro j t hj
      rcases set_lookup_cases hk j hj with ⟨rfl, rfl⟩ | ⟨hne, hold⟩
      · rfl
      · have hok := hinv.tasks_ok j t hold
        cases t with
        | start => trivial
        | awaiting q => trivial
        | done r =>
          cases r with
          | none => trivial
          | some i2 =>
            have hok2 : c.mapping = some i2 := hok
            rw [hmapnone] at hok2
            exact Option.noConfusion hok2
        | creatingPre q =>
          exact (hne (hinv.core.creator_unique j k (.creatingPre q)
            (.creatingGot p i) q p hold ht rfl rfl)).elim
        | creatingGot q i2 =>
          exact (hne (hinv.core.creator_unique j k (.creatingGot q i2)
            (.creatingGot p i) q p hold ht rfl rfl)).elim
        | creatingSaved q i2 =>
          have hok2 : c.mapping = some i2 := hok
          rw [hmapnone] at hok2
          exact Option.noConfusion hok2
    · intro q i2 hq
      have hres := hinv.res_ok q i2 hq
      rw [hmapnone] at hres
      exact Option.noConfusion hres
  | finish sf c k p i ht =>
    have hk := lt_length_of_getElem? ht
    have hmap : c.mapping = some i :=
      hinv.tasks_ok k (.creatingSaved p i) ht
    refine ⟨?_, ?_, ?_, ?_⟩
    · intro j t hj
      rcases set_lookup_cases hk j hj with ⟨rfl, rfl⟩ | ⟨hne, hold⟩
      · exact hmap
      · exact hinv.tasks_ok j t hold
    · intro q i2 hq
      rw [alookup_cons] at hq
      split at hq
      · exact (Option.some.inj (Option.some.inj hq)) ▸ hmap
      · exact hinv.res_ok q i2 hq
    · intro k1 k2 t1 t2 p1 p2 h1 h2 hc1 hc2
      exact (@no_creator_of_set c hinv.core k p (.creatingSaved p i) ht rfl
        (.done (some i)) rfl k1 t1 p1 h1 hc1).elim
    · intro j t p0 hj hc
      exact (@no_creator_of_set c hinv.core k p (.creatingSaved p i) ht rfl
        (.done (some i)) rfl j t p0 hj hc).elim
  | awaitDone sf c k p r ht hr =>
    have hk := lt_length_of_getElem? ht
    refine ⟨?_, hinv.res_ok, unique_of_set_noncreator hinv.core hk rfl,
      inflight_of_set_noncreator hinv.core hk rfl⟩
    intro j t hj
    rcases set_lookup_cases hk j hj with ⟨rfl, rfl⟩ | ⟨hne, hold⟩
    · cases r with
      | none => trivial
      | some i => exact hinv.res_ok p i hr
    · exact hinv.tasks_ok j t hold

/-- Every configuration reachable under the faithful relation keeps the
creator-tracking invariant. -/
theorem cinv_of_reachable (n : Nat) (c : Config) (h : Reachable n c) :
    CInv c := by
  induction h with
  | refl => exact (inv_init n).core
  | tail hsteps hstep ih => exact cinv_step ih hstep

/-- Every configuration reachable under the save-success restriction
keeps the full invariant. -/
theorem inv_of_reachableSaved (n : Nat) (c : Config)
    (h : ReachableSaved n c) : Inv c := by
  induction h with
  | refl => exact inv_init n
  | tail hsteps hstep ih => exact inv_step ih hstep

end SingleFlight

/-- C2 counterexample: a concrete reachable interleaving of two
concurrent `getOrCreateTopic` calls for one thread in which the two
calls complete with different sub-channel ids. Call 0 creates topic 7,
but the `updateOne` inside `saveChatMapping` rejects and the error is
swallowed, so the promise resolves with 7 while `chatMappings` stays
empty; call 1 then finds neither a cached mapping nor an in-flight
creation, creates again, and completes with topic 8. -/
theorem topic_single_flight_cex :
    SingleFlight.Reachable 2
      ⟨some 8, none, [(1, some 8), (0, some 7)], 2,
        [SingleFlight.TaskState.done (some 7),
          SingleFlight.TaskState.done (some 8)]⟩
  ∧ (⟨some 8, none, [(1, some 8), (0, some 7)], 2,
        [SingleFlight.TaskState.done (some 7),
          SingleFlight.TaskState.done (some 8)]⟩ :
      SingleFlight.Config).tasks[0]? =
        some (SingleFlight.TaskState.done (some 7))
  ∧ (⟨some 8, none, [(1, some 8), (0, some 7)], 2,
        [SingleFlight.TaskState.done (some 7),
          SingleFlight.TaskState.done (some 8)]⟩ :
      SingleFlight.Config).tasks[1]? =
        some (SingleFlight.TaskState.done (some 8))
  ∧ (7 : Nat) ≠ 8 := by
  refine ⟨?_, rfl, rfl, by decide⟩
  exact Relation.ReflTransGen.tail
    (Relation.ReflTransGen.tail
      (Relation.ReflTransGen.tail
        (Relation.ReflTransGen.tail
          (Relation.ReflTransGen.tail
            (Relation.ReflTransGen.tail
              (Relation.ReflTransGen.tail Relation.ReflTransGen.refl
                (SingleFlight.Step.startCreate true (SingleFlight.init 2)
                  0 rfl rfl rfl))
              (SingleFlight.Step.createOk true
                ⟨none, some 0, [], 1,
                  [SingleFlight.TaskState.creatingPre 0,
                    SingleFlight.TaskState.start]⟩ 0 0 7 rfl))
            (SingleFlight.Step.finishNoSave
              ⟨none, some 0, [], 1,
                [SingleFlight.TaskState.creatingGot 0 7,
                  SingleFlight.TaskState.start]⟩ 0 0 7 rfl))
          (SingleFlight.Step.startCreate true
            ⟨none, none, [(0, some 7)], 1,
              [SingleFlight.TaskState.done (some 7),
                SingleFlight.TaskState.start]⟩ 1 rfl rfl rfl))
        (SingleFlight.Step.createOk true
          ⟨none, some 1, [(0, some 7)], 2,
            [SingleFlight.TaskState.done (some 7),
              SingleFlight.TaskState.creatingPre 1]⟩ 1 1 8 rfl))
      (SingleFlight.Step.saveMapping true
        ⟨none, some 1, [(0, some 7)], 2,
          [SingleFlight.TaskState.done (some 7),
            SingleFlight.TaskState.creatingGot 1 8]⟩ 1 1 8 rfl))
    (SingleFlight.Step.finish true
      ⟨some 8, some 1, [(0, some 7)], 2,
        [SingleFlight.TaskState.done (some 7),
          SingleFlight.TaskState.creatingSaved 1 8]⟩ 1 1 8 rfl)

/-- C2 (amended): in every reachable interleaving of concurrent
`getOrCreateTopic` calls for one thread, at most one creation is in
flight at any time, and a call entering while a creation is in flight
can only move to awaiting that same in-flight promise — it never starts
a second creation. However, because `getOrCreateTopic` returns the
created topic id even when `saveChatMapping`'s `updateOne` fails (the
error is swallowed and `chatMappings` is never set), a call entering
after such a creation completes can trigger a second creation and
return a different sub-channel id; only in executions where every
mapping save succeeds do concurrent calls never complete with two
different sub-channel ids. -/
theorem topic_single_flight_corrected (n : Nat) (c : SingleFlight.Config)
    (h : SingleFlight.Reachable n c) :
    (∀ (k1 k2 : Nat) (t1 t2 : SingleFlight.TaskState) (p1 p2 : Nat),
      c.tasks[k1]? = some t1 → c.tasks[k2]? = some t2 →
      SingleFlight.creatorOf t1 = some p1 →
      SingleFlight.creatorOf t2 = some p2 → k1 = k2)
  ∧ (∀ (c' : SingleFlight.Config) (k p : Nat),
      c.tasks[k]? = some .start → c.mapping = none →
      c.inFlight = some p → SingleFlight.Step true c c' →
      c'.tasks[k]? = some .start ∨ c'.tasks[k]? = some (.awaiting p))
  ∧ (∀ c0 : SingleFlight.Config, SingleFlight.ReachableSaved n c0 →
      ∀ (k1 k2 i j : Nat),
        c0.tasks[k1]? = some (.done (some i)) →
        c0.tasks[k2]? = some (.done (some j)) → i = j) := by
  refine ⟨(SingleFlight.cinv_of_reachable n c h).creator_unique, ?_, ?_⟩
  · intro c' k p ht hm hf hs
    cases hs with
    | startCached sf c k0 i ht0 hm0 =>
      rw [hm] at hm0
      exact Option.noConfusion hm0
    | startAwait sf c k0 p0 ht0 hm0 hf0 =>
      by_cases hk : k = k0
      · subst hk
        right
        rw [List.getElem?_set_self (SingleFlight.lt_length_of_getElem? ht0)]
        have hp : p0 = p := Option.some.inj (hf0.symm.trans hf)
        rw [hp]
      · left
        rw [List.getElem?_set_ne (Ne.symm hk)]
        exact ht
    | startCreate sf c k0 ht0 hm0 hf0 =>
      rw [hf] at hf0
      exact Option.noConfusion hf0
    | createFail sf c k0 p0 ht0 =>
      by_cases hk : k = k0
      · subst hk
        exact SingleFlight.TaskState.noConfusion
          (Option.some.inj (ht.symm.trans ht0))
      · left
        rw [List.getElem?_set_ne (Ne.symm hk)]
        exact ht
    | createOk sf c k0 p0 i ht0 =>
      by_cases hk : k = k0
      · subst hk
        exact SingleFlight.TaskState.noConfusion
          (Option.some.inj (ht.symm.trans ht0))
      · left
        rw [List.getElem?_set_ne (Ne.symm hk)]
        exact ht
    | saveMapping sf c k0 p0 i ht0 =>
      by_cases hk : k = k0
      · subst hk
        exact SingleFlight.TaskState.noConfusion
          (Option.some.inj (ht.symm.trans ht0))
      · left
        rw [List.getElem?_set_ne (Ne.symm hk)]
        exact ht
    | finish sf c k0 p0 i ht0 =>
      by_cases hk : k = k0
      · subst hk
        exact SingleFlight.TaskState.noConfusion
          (Option.some.inj (ht.symm.trans ht0))
      · left
        rw [List.getElem?_set_ne (Ne.symm hk)]
        exact ht
    | finishNoSave c k0 p0 i ht0 =>
      by_cases hk : k = k0
      · subst hk
        exact SingleFlight.TaskState.noConfusion
          (Option.some.inj (ht.symm.trans ht0))
      · left
        rw [List.getElem?_set_ne (Ne.symm hk)]
        exact ht
    | awaitDone sf c k0 p0 r ht0 hr0 =>
      by_cases hk : k = k0
      · subst hk
        exact SingleFlight.TaskState.noConfusion
          (Option.some.inj (ht.symm.trans ht0))
      · left
        rw [List.getElem?_set_ne (Ne.symm hk)]
        exact ht
  · intro c0 h0 k1 k2 i j h1 h2
    have hinv := SingleFlight.inv_of_reachableSaved n c0 h0
    have hi : c0.mapping = some i := hinv.tasks_ok k1 _ h1
    have hj : c0.mapping = some j := hinv.tasks_ok k2 _ h2
    exact Option.some.inj (hi.symm.trans hj)

/-- Witness for C2 (amended): a concrete two-call interleaving. Call 0
starts the creation (promise 0); the configuration with call 1 still at
its entry point is reachable, and by the theorem call 1, entering while
the creation is in flight, can only join promise 0. -/
theorem topic_single_flight_corrected_witness :
    ((⟨none, some 0, [], 1,
        [SingleFlight.TaskState.creatingPre 0,
          SingleFlight.TaskState.awaiting 0]⟩ :
      SingleFlight.Config).tasks[1]? =
        some SingleFlight.TaskState.start)
  ∨ ((⟨none, some 0, [], 1,
        [SingleFlight.TaskState.creatingPre 0,
          SingleFlight.TaskState.awaiting 0]⟩ :
      SingleFlight.Config).tasks[1]? =
        some (SingleFlight.TaskState.awaiting 0)) :=
  (topic_single_flight_corrected 2
      ⟨none, some 0, [], 1,
        [SingleFlight.TaskState.creatingPre 0, SingleFlight.TaskState.start]⟩
      (Relation.ReflTransGen.tail Relation.ReflTransGen.refl
        (SingleFlight.Step.startCreate true (SingleFlight.init 2) 0 rfl rfl
          rfl))).2.1
    ⟨none, some 0, [], 1,
      [SingleFlight.TaskState.creatingPre 0,
        SingleFlight.TaskState.awaiting 0]⟩
    1 0 rfl rfl rfl
    (SingleFlight.Step.startAwait true
      ⟨none, some 0, [], 1,
        [SingleFlight.TaskState.creatingPre 0, SingleFlight.TaskState.start]⟩
      1 0 rfl rfl rfl)

end JxBridge
